import Mathlib

/-!
Verification of the Litra Glow device-synchronization engine.

Shallow embedding of the Rust sources:
  * `src/protocol.rs` — the binary protocol codec (`Command.to_bytes`,
    `Response.from_bytes`) and the numeric domain constants;
  * `src/main.rs` — temperature/brightness conversions (`clamp_temperature`,
    the headless clamp and percentage conversion) and the synchronization
    engine `device_loop` / `handle_command`, modelled as a pure step function
    over an explicit environment (transport outcomes, channel activity).

Machine integers are modelled as `Nat` (with explicit `% 2^16` where u16
wrap-around matters); `Instant` timestamps are milliseconds as `Nat`.
-/

namespace Litra

/-! ## Protocol constants, src/protocol.rs:1-16 -/

def MIN_BRIGHTNESS : Nat := 0x14
def MAX_BRIGHTNESS : Nat := 0xfa
def MIN_TEMPERATURE : Nat := 2700
def MAX_TEMPERATURE : Nat := 6500
def TEMPERATURE_STEP : Nat := 100

def SET_POWER : Nat := 0x11FF041C
def SET_BRIGHTNESS : Nat := 0x11FF044C
def SET_TEMPERATURE : Nat := 0x11FF049C

def GET_POWER : Nat := 0x11FF0401
def GET_BRIGHTNESS : Nat := 0x11FF0431
def GET_TEMPERATURE : Nat := 0x11FF0481

/-! ## Command encoding, src/protocol.rs:18-56 -/

inductive Command where
  | SetPower (onb : Bool)
  | SetBrightness (level : Nat)
  | SetTemperature (kelvin : Nat)
  | GetPower
  | GetBrightness
  | GetTemperature
deriving DecidableEq, Repr

/-- `u32::to_be_bytes` on a value below `2^32`. -/
def u32ToBeBytes (n : Nat) : List Nat :=
  [n / 16777216 % 256, n / 65536 % 256, n / 256 % 256, n % 256]

/-- `u16::to_be_bytes` on a value below `2^16`. -/
def u16ToBeBytes (n : Nat) : List Nat :=
  [n / 256 % 256, n % 256]

/-- `Command::to_bytes`, src/protocol.rs:29-55: a 20-byte report, opcode
big-endian in bytes 0-3, payload (if any) from byte 4, rest zero. -/
def Command.to_bytes : Command → List Nat
  | .SetPower onb =>
      u32ToBeBytes SET_POWER ++ (if onb then 1 else 0) :: List.replicate 15 0
  | .SetBrightness level =>
      u32ToBeBytes SET_BRIGHTNESS ++ u16ToBeBytes level ++ List.replicate 14 0
  | .SetTemperature kelvin =>
      u32ToBeBytes SET_TEMPERATURE ++ u16ToBeBytes kelvin ++ List.replicate 14 0
  | .GetPower => u32ToBeBytes GET_POWER ++ List.replicate 16 0
  | .GetBrightness => u32ToBeBytes GET_BRIGHTNESS ++ List.replicate 16 0
  | .GetTemperature => u32ToBeBytes GET_TEMPERATURE ++ List.replicate 16 0

/-! ## Response decoding, src/protocol.rs:58-87 -/

inductive Response where
  | Power (onb : Bool) (is_hw : Bool)
  | Brightness (level : Nat) (is_hw : Bool)
  | Temperature (level : Nat) (is_hw : Bool)
deriving DecidableEq, Repr

/-- `Response::from_bytes`, src/protocol.rs:67-86: requires at least 6 bytes,
dispatches on the tag byte at offset 3. -/
def Response.from_bytes : List Nat → Option Response
  | _ :: _ :: _ :: d3 :: d4 :: d5 :: _ =>
      if d3 = 0x00 then some (.Power (d4 != 0) true)
      else if d3 = 0x01 then some (.Power (d4 != 0) false)
      else if d3 = 0x10 then some (.Brightness d5 true)
      else if d3 = 0x31 then some (.Brightness d5 false)
      else if d3 = 0x20 then some (.Temperature (d4 * 256 + d5) true)
      else if d3 = 0x81 then some (.Temperature (d4 * 256 + d5) false)
      else none
  | _ => none

/-- The tag bytes `Response::from_bytes` recognises at offset 3. -/
def knownTags : List Nat := [0x00, 0x01, 0x10, 0x31, 0x20, 0x81]

/-! ## Engine data model, src/main.rs:66-94 -/

inductive DeviceCommand where
  | Retry
  | SetPower (onb : Bool)
  | SetBrightness (level : Nat)
  | SetTemperature (level : Nat)
deriving DecidableEq, Repr

inductive DeviceEvent where
  | Connected
  | Power (onb : Bool)
  | Brightness (level : Nat)
  | Temperature (level : Nat)
  | Error (msg : String)
deriving DecidableEq, Repr

/-- `PENDING_TIMEOUT`, src/main.rs:83 (milliseconds). -/
def PENDING_TIMEOUT : Nat := 300

/-- `DeviceState`, src/main.rs:87-94. `Instant` timestamps are `Nat`
milliseconds on a monotone clock. -/
structure DeviceState where
  power : Bool
  brightness : Nat
  temperature : Nat
  pending_brightness : Option Nat
  pending_temperature : Option Nat
deriving DecidableEq, Repr

/-! ## Conversions at the facade boundary, src/main.rs:96-109, 356-357,
390-403 -/

/-- Rust `Ord::clamp` on `Int` (i32 values; `lo ≤ hi` in all uses here). -/
def clampInt (v lo hi : Int) : Int :=
  if v < lo then lo else if hi < v then hi else v

/-- Rust `Ord::clamp` on `Nat` (u16 values). -/
def clampNat (v lo hi : Nat) : Nat :=
  if v < lo then lo else if hi < v then hi else v

/-- `clamp_temperature`, src/main.rs:102-109, modelled on the i32 value
obtained from `value.round() as i32` (the f32 rounding is the caller's
input boundary). -/
def clamp_temperature (value : Int) : Nat :=
  let clamped := (clampInt value (MIN_TEMPERATURE : Nat) (MAX_TEMPERATURE : Nat)).toNat
  let step := TEMPERATURE_STEP
  let half := step / 2
  let stepped := (clamped + half) / step * step
  clampNat stepped MIN_TEMPERATURE MAX_TEMPERATURE

/-- `clamp_brightness`, src/main.rs:96-100, modelled on the rounded i32. -/
def clamp_brightness (value : Int) : Nat :=
  (clampInt value (MIN_BRIGHTNESS : Nat) (MAX_BRIGHTNESS : Nat)).toNat

/-- The headless temperature path, src/main.rs:398-403:
`temp.clamp(MIN_TEMPERATURE, MAX_TEMPERATURE)` and nothing else. -/
def headless_temperature (temp : Nat) : Nat :=
  clampNat temp MIN_TEMPERATURE MAX_TEMPERATURE

/-- u16 wrapping subtraction (`a`, `b` below `2^16`). -/
def sub16 (a b : Nat) : Nat := (a + 65536 - b) % 65536

/-- u16 wrapping multiplication. -/
def mul16 (a b : Nat) : Nat := a * b % 65536

/-- The headless status path's brightness-to-percentage conversion,
src/main.rs:356-357: `((b - MIN_BRIGHTNESS) * 100) / (MAX_BRIGHTNESS -
MIN_BRIGHTNESS)` in u16 arithmetic. -/
def brightness_pct (b : Nat) : Nat :=
  mul16 (sub16 b MIN_BRIGHTNESS) 100 / sub16 MAX_BRIGHTNESS MIN_BRIGHTNESS

/-! ## Response reconciliation, src/main.rs:647-694

The body of the `match response` in `device_loop`. In the source the
brightness/temperature decision is `let accept = is_hw || match pending
{...}` where the match arm for an expired pending marker clears it; the
`||` short-circuits, so a hardware-sourced response never evaluates the
match and never touches the pending marker. That control flow is spelled
out below. -/

def reconcile (now : Nat) (s : DeviceState) (r : Response) :
    DeviceState × List DeviceEvent :=
  match r with
  | .Power onb _ => ({ s with power := onb }, [DeviceEvent.Power onb])
  | .Brightness level is_hw =>
      if is_hw then
        ({ s with brightness := level }, [DeviceEvent.Brightness level])
      else
        match s.pending_brightness with
        | some t =>
            if now - t < PENDING_TIMEOUT then (s, [])
            else ({ s with pending_brightness := none, brightness := level },
                  [DeviceEvent.Brightness level])
        | none => ({ s with brightness := level }, [DeviceEvent.Brightness level])
  | .Temperature level is_hw =>
      if is_hw then
        ({ s with temperature := level }, [DeviceEvent.Temperature level])
      else
        match s.pending_temperature with
        | some t =>
            if now - t < PENDING_TIMEOUT then (s, [])
            else ({ s with pending_temperature := none, temperature := level },
                  [DeviceEvent.Temperature level])
        | none => ({ s with temperature := level }, [DeviceEvent.Temperature level])

/-! ## Command handling, src/main.rs:707-737 -/

/-- The state mutation of `handle_command` (performed before the device
write, so it persists even when the write fails). -/
def handle_command (now : Nat) (cmd : DeviceCommand) (s : DeviceState) :
    DeviceState :=
  match cmd with
  | .Retry => s
  | .SetPower onb => { s with power := onb }
  | .SetBrightness level =>
      { s with brightness := level, pending_brightness := some now }
  | .SetTemperature level =>
      { s with temperature := level, pending_temperature := some now }

/-- Whether `handle_command` performs a device write when connected
(`Retry` sends nothing and cannot fail). -/
def sendsWrite : DeviceCommand → Bool
  | .Retry => false
  | _ => true

/-! ## One iteration of `device_loop`, src/main.rs:585-705

The loop interacts with the outside world through the HID transport and
the command channel; one iteration's interactions are collected in an
`Env` record:
  * `openOutcome` — result of `LitraDevice::open()` (used only when no
    handle is held);
  * `queryWritesFail` — whether the three query-command writes issued
    right after a successful open fail (src/main.rs:600-610 only logs
    such failures, so the field is deliberately never read below);
  * `queuedCmds` — the commands `try_recv` yields this tick, each paired
    with whether its device write succeeds;
  * `chanClosedDuringDrain` — whether the drain's final `try_recv` error
    is `Disconnected` rather than `Empty` (the `while let Ok` exits the
    drain either way, so the field is deliberately never read below);
  * `readResult` — result of `dev.try_read()`;
  * `recvWhileDisconnected` — what `recv_timeout` returns in the
    disconnected branch;
  * `now` — the clock for `Instant::now()` / `elapsed()` this tick. -/

inductive OpenOutcome where
  | success
  | failure (msg : String)
deriving DecidableEq, Repr

inductive ReadResult where
  | ok (r : Option Response)
  | err
deriving DecidableEq, Repr

inductive ChanRecv where
  | received (c : DeviceCommand)
  | closed
  | timedOut
deriving DecidableEq, Repr

structure Env where
  openOutcome : OpenOutcome
  queryWritesFail : Bool
  queuedCmds : List (DeviceCommand × Bool)
  chanClosedDuringDrain : Bool
  readResult : ReadResult
  recvWhileDisconnected : ChanRecv
  now : Nat
deriving DecidableEq, Repr

/-- The loop's own mutable context: `device.is_some()`, the engine state,
and `last_error` (src/main.rs:591-592). -/
structure LoopState where
  connected : Bool
  state : DeviceState
  lastError : Option String
deriving DecidableEq, Repr

inductive StepResult where
  | cont (ls : LoopState) (events : List DeviceEvent)
  | halt (ls : LoopState) (events : List DeviceEvent)
deriving DecidableEq, Repr

def StepResult.isHalt : StepResult → Bool
  | .cont _ _ => false
  | .halt _ _ => true

/-- The command drain, src/main.rs:637-644: apply each queued command in
order; on the first failed device write, stop and report disconnection
(the state mutation of the failing command has already happened). Returns
the state and the `disconnected` flag. -/
def applyCmds (now : Nat) : List (DeviceCommand × Bool) → DeviceState →
    DeviceState × Bool
  | [], s => (s, false)
  | (c, writeOk) :: rest, s =>
      let s' := handle_command now c s
      if sendsWrite c && !writeOk then (s', true)
      else applyCmds now rest s'

/-- The connected part of one iteration, src/main.rs:635-701: drain the
command queue, then (if still connected) one non-blocking read reconciled
against pending markers; on any failure drop the handle and emit
`Error("Device disconnected")`. Returns state, events, and whether the
handle is still held. -/
def connectedTick (env : Env) (s : DeviceState) :
    DeviceState × List DeviceEvent × Bool :=
  let drained := applyCmds env.now env.queuedCmds s
  if drained.2 then
    (drained.1, [DeviceEvent.Error "Device disconnected"], false)
  else
    match env.readResult with
    | .ok none => (drained.1, [], true)
    | .ok (some r) =>
        let rec' := reconcile env.now drained.1 r
        (rec'.1, rec'.2, true)
    | .err => (drained.1, [DeviceEvent.Error "Device disconnected"], false)

/-- One iteration of the `loop` in `device_loop`, src/main.rs:594-704.
When no handle is held, try to open: on success emit `Connected`, reset
`last_error` and fall through to the connected part in the same iteration
(query-write failures are only logged); on failure emit the error message
if it differs from the last one and block on `recv_timeout`, where a
closed channel is the only way out of the loop. -/
def loopIter (env : Env) (ls : LoopState) : StepResult :=
  if ls.connected then
    let t := connectedTick env ls.state
    .cont ⟨t.2.2, t.1, ls.lastError⟩ t.2.1
  else
    match env.openOutcome with
    | .success =>
        let t := connectedTick env ls.state
        .cont ⟨t.2.2, t.1, none⟩ (DeviceEvent.Connected :: t.2.1)
    | .failure msg =>
        let evts := if ls.lastError = some msg then [] else [DeviceEvent.Error msg]
        match env.recvWhileDisconnected with
        | .received c =>
            .cont ⟨false, handle_command env.now c ls.state, some msg⟩ evts
        | .closed => .halt ⟨false, ls.state, some msg⟩ evts
        | .timedOut => .cont ⟨false, ls.state, some msg⟩ evts

/-- An iteration environment for a disconnected tick whose `open()` fails
with `msg` and whose `recv_timeout` times out. -/
def failEnv (msg : String) : Env :=
  { openOutcome := .failure msg
    queryWritesFail := false
    queuedCmds := []
    chanClosedDuringDrain := false
    readResult := .ok none
    recvWhileDisconnected := .timedOut
    now := 0 }

/-- Iterate `loopIter` over a run of failed open attempts, collecting the
emitted events. -/
def runFailures : List String → LoopState → LoopState × List DeviceEvent
  | [], ls => (ls, [])
  | m :: rest, ls =>
      match loopIter (failEnv m) ls with
      | .cont ls' evts =>
          let r := runFailures rest ls'
          (r.1, evts ++ r.2)
      | .halt ls' evts => (ls', evts)

end Litra

namespace Litra

/-- C4 -- For every `Command`, `to_bytes` produces exactly 20 bytes: the
opcode big-endian at offsets 0-3, `SetPower`'s one-byte boolean at offset 4,
`SetBrightness`/`SetTemperature`'s u16 big-endian at offsets 4-5, query
commands carrying only the opcode, and every remaining byte zero. -/
theorem C4_encode_layout :
    (∀ onb : Bool, (Command.SetPower onb).to_bytes =
        0x11 :: 0xFF :: 0x04 :: 0x1C :: (if onb then 1 else 0) :: List.replicate 15 0) ∧
    (∀ level : Nat, level < 65536 → (Command.SetBrightness level).to_bytes =
        0x11 :: 0xFF :: 0x04 :: 0x4C :: (level / 256) :: (level % 256) :: List.replicate 14 0) ∧
    (∀ kelvin : Nat, kelvin < 65536 → (Command.SetTemperature kelvin).to_bytes =
        0x11 :: 0xFF :: 0x04 :: 0x9C :: (kelvin / 256) :: (kelvin % 256) :: List.replicate 14 0) ∧
    Command.GetPower.to_bytes = 0x11 :: 0xFF :: 0x04 :: 0x01 :: List.replicate 16 0 ∧
    Command.GetBrightness.to_bytes = 0x11 :: 0xFF :: 0x04 :: 0x31 :: List.replicate 16 0 ∧
    Command.GetTemperature.to_bytes = 0x11 :: 0xFF :: 0x04 :: 0x81 :: List.replicate 16 0 ∧
    ∀ c : Command, c.to_bytes.length = 20 := by
  refine ⟨?_, ?_, ?_, by decide, by decide, by decide, ?_⟩
  · intro onb
    cases onb <;> decide
  · intro level h
    simp only [Command.to_bytes, u32ToBeBytes, u16ToBeBytes, SET_BRIGHTNESS]
    norm_num
    omega
  · intro kelvin h
    simp only [Command.to_bytes, u32ToBeBytes, u16ToBeBytes, SET_TEMPERATURE]
    norm_num
    omega
  · intro c
    cases c <;> simp [Command.to_bytes, u32ToBeBytes, u16ToBeBytes]

/-- C4 witness: the layout at concrete inputs. -/
theorem C4_encode_layout_witness :
    (Command.SetBrightness 300).to_bytes =
      0x11 :: 0xFF :: 0x04 :: 0x4C :: 1 :: 44 :: List.replicate 14 0 ∧
    (Command.SetTemperature 6500).to_bytes =
      0x11 :: 0xFF :: 0x04 :: 0x9C :: 25 :: 100 :: List.replicate 14 0 :=
  ⟨C4_encode_layout.2.1 300 (by decide), C4_encode_layout.2.2.1 6500 (by decide)⟩

/-- C5 -- `from_bytes` returns `none` iff the input is shorter than 6 bytes
or the tag byte at offset 3 is unknown; for known tags it returns the field
read at the documented offsets, with the hardware-sourced flag fixed by the
tag that matched. -/
theorem C5_decode :
    (∀ data : List Nat,
      Response.from_bytes data = none ↔
        data.length < 6 ∨ data.getD 3 0 ∉ knownTags) ∧
    (∀ d0 d1 d2 d4 d5 : Nat, ∀ tail : List Nat,
      Response.from_bytes (d0 :: d1 :: d2 :: 0x00 :: d4 :: d5 :: tail)
        = some (.Power (d4 != 0) true) ∧
      Response.from_bytes (d0 :: d1 :: d2 :: 0x01 :: d4 :: d5 :: tail)
        = some (.Power (d4 != 0) false) ∧
      Response.from_bytes (d0 :: d1 :: d2 :: 0x10 :: d4 :: d5 :: tail)
        = some (.Brightness d5 true) ∧
      Response.from_bytes (d0 :: d1 :: d2 :: 0x31 :: d4 :: d5 :: tail)
        = some (.Brightness d5 false) ∧
      Response.from_bytes (d0 :: d1 :: d2 :: 0x20 :: d4 :: d5 :: tail)
        = some (.Temperature (d4 * 256 + d5) true) ∧
      Response.from_bytes (d0 :: d1 :: d2 :: 0x81 :: d4 :: d5 :: tail)
        = some (.Temperature (d4 * 256 + d5) false)) := by
  constructor
  · intro data
    match data with
    | [] => simp [Response.from_bytes, knownTags]
    | [d0] => simp [Response.from_bytes, knownTags]
    | [d0, d1] => simp [Response.from_bytes, knownTags]
    | [d0, d1, d2] => simp [Response.from_bytes, knownTags]
    | [d0, d1, d2, d3] =>
        simp [Response.from_bytes, knownTags]
    | [d0, d1, d2, d3, d4] =>
        simp [Response.from_bytes, knownTags]
    | d0 :: d1 :: d2 :: d3 :: d4 :: d5 :: rest =>
        simp only [Response.from_bytes, List.length_cons, List.getD, List.get?,
          knownTags, List.mem_cons, List.not_mem_nil]
        split_ifs <;> simp_all
  · intro d0 d1 d2 d4 d5 tail
    refine ⟨?_, ?_, ?_, ?_, ?_, ?_⟩ <;> simp [Response.from_bytes]

/-- C1 -- For a non-hardware-sourced brightness or temperature response:
with a pending timestamp younger than 300 ms the response is discarded and
state, pending markers and events are unchanged; with a pending timestamp
at least 300 ms old the response is accepted, the marker cleared, the field
updated and an event emitted; with no pending timestamp it is accepted
unconditionally. -/
theorem C1_reconcile_non_hw :
    ∀ (now t level : Nat) (s : DeviceState),
      ((s.pending_brightness = some t → now - t < PENDING_TIMEOUT →
          reconcile now s (.Brightness level false) = (s, [])) ∧
       (s.pending_brightness = some t → PENDING_TIMEOUT ≤ now - t →
          reconcile now s (.Brightness level false) =
            ({ s with pending_brightness := none, brightness := level },
             [DeviceEvent.Brightness level])) ∧
       (s.pending_brightness = none →
          reconcile now s (.Brightness level false) =
            ({ s with brightness := level }, [DeviceEvent.Brightness level]))) ∧
      ((s.pending_temperature = some t → now - t < PENDING_TIMEOUT →
          reconcile now s (.Temperature level false) = (s, [])) ∧
       (s.pending_temperature = some t → PENDING_TIMEOUT ≤ now - t →
          reconcile now s (.Temperature level false) =
            ({ s with pending_temperature := none, temperature := level },
             [DeviceEvent.Temperature level])) ∧
       (s.pending_temperature = none →
          reconcile now s (.Temperature level false) =
            ({ s with temperature := level }, [DeviceEvent.Temperature level]))) := by
  intro now t level s
  refine ⟨⟨?_, ?_, ?_⟩, ?_, ?_, ?_⟩ <;> intro h1
  · intro h2; simp [reconcile, h1, h2]
  · intro h2; simp [reconcile, h1, Nat.not_lt.mpr h2]
  · simp [reconcile, h1]
  · intro h2; simp [reconcile, h1, h2]
  · intro h2; simp [reconcile, h1, Nat.not_lt.mpr h2]
  · simp [reconcile, h1]

/-- C1 witness: a 100 ms-old pending marker rejects, a 400 ms-old one
accepts and clears, no marker accepts. -/
theorem C1_reconcile_non_hw_witness :
    reconcile 100 ⟨false, 20, 2700, some 0, some 0⟩ (.Brightness 42 false)
      = (⟨false, 20, 2700, some 0, some 0⟩, []) ∧
    reconcile 400 ⟨false, 20, 2700, some 0, some 0⟩ (.Brightness 42 false)
      = (⟨false, 42, 2700, none, some 0⟩, [DeviceEvent.Brightness 42]) ∧
    reconcile 100 ⟨false, 20, 2700, none, none⟩ (.Temperature 3000 false)
      = (⟨false, 20, 3000, none, none⟩, [DeviceEvent.Temperature 3000]) :=
  ⟨(C1_reconcile_non_hw 100 0 42 ⟨false, 20, 2700, some 0, some 0⟩).1.1
      rfl (by decide),
   (C1_reconcile_non_hw 400 0 42 ⟨false, 20, 2700, some 0, some 0⟩).1.2.1
      rfl (by decide),
   (C1_reconcile_non_hw 100 0 3000 ⟨false, 20, 2700, none, none⟩).2.2.2 rfl⟩

/-- C2 -- Hardware-sourced responses, and power responses regardless of
the flag, are accepted immediately: the field is updated and an event is
emitted, for every state and hence independent of any pending marker. -/
theorem C2_hw_and_power_accepted :
    ∀ (now level : Nat) (onb is_hw : Bool) (s : DeviceState),
      reconcile now s (.Power onb is_hw) =
        ({ s with power := onb }, [DeviceEvent.Power onb]) ∧
      reconcile now s (.Brightness level true) =
        ({ s with brightness := level }, [DeviceEvent.Brightness level]) ∧
      reconcile now s (.Temperature level true) =
        ({ s with temperature := level }, [DeviceEvent.Temperature level]) := by
  intro now level onb is_hw s
  exact ⟨rfl, rfl, rfl⟩

/-- C8 counterexample: a hardware-sourced brightness response arriving
while `pending_brightness` is set is accepted (an event is emitted) yet
does NOT clear the pending marker, contrary to the claim that any
accepted confirmation — including hardware-sourced ones — clears it. -/
theorem C8_counterexample :
    (reconcile 100 ⟨false, 20, 2700, some 0, none⟩ (.Brightness 50 true)).2
      = [DeviceEvent.Brightness 50] ∧
    (reconcile 100 ⟨false, 20, 2700, some 0, none⟩
        (.Brightness 50 true)).1.pending_brightness = some 0 := by
  exact ⟨rfl, rfl⟩

/-- C8 (amended) -- A set pending marker is cleared exactly by the
acceptance of a NON-hardware-sourced response for that field observed at
least 300 ms after stamping; hardware-sourced responses, though accepted,
leave it untouched, and the only other operation affecting a marker is a
`SetBrightness`/`SetTemperature` command re-stamping it with the current
time. -/
theorem C8_pending_discipline :
    ∀ (now : Nat) (s : DeviceState),
      (∀ t level, s.pending_brightness = some t → PENDING_TIMEOUT ≤ now - t →
        (reconcile now s (.Brightness level false)).1.pending_brightness = none) ∧
      (∀ t level, s.pending_temperature = some t → PENDING_TIMEOUT ≤ now - t →
        (reconcile now s (.Temperature level false)).1.pending_temperature = none) ∧
      (∀ r, (reconcile now s r).1.pending_brightness ≠ s.pending_brightness →
        ∃ level t, r = .Brightness level false ∧ s.pending_brightness = some t ∧
          PENDING_TIMEOUT ≤ now - t ∧
          (reconcile now s r).1.pending_brightness = none ∧
          (reconcile now s r).2 = [DeviceEvent.Brightness level]) ∧
      (∀ r, (reconcile now s r).1.pending_temperature ≠ s.pending_temperature →
        ∃ level t, r = .Temperature level false ∧ s.pending_temperature = some t ∧
          PENDING_TIMEOUT ≤ now - t ∧
          (reconcile now s r).1.pending_temperature = none ∧
          (reconcile now s r).2 = [DeviceEvent.Temperature level]) ∧
      (∀ c, (handle_command now c s).pending_brightness ≠ s.pending_brightness →
        ∃ level, c = .SetBrightness level ∧
          (handle_command now c s).pending_brightness = some now) ∧
      (∀ c, (handle_command now c s).pending_temperature ≠ s.pending_temperature →
        ∃ level, c = .SetTemperature level ∧
          (handle_command now c s).pending_temperature = some now) := by
  intro now s
  refine ⟨?_, ?_, ?_, ?_, ?_, ?_⟩
  · intro t level h1 h2
    simp [reconcile, h1, Nat.not_lt.mpr h2]
  · intro t level h1 h2
    simp [reconcile, h1, Nat.not_lt.mpr h2]
  · intro r hne
    match r with
    | .Power onb is_hw => simp [reconcile] at hne
    | .Brightness level is_hw =>
        cases is_hw with
        | true => simp [reconcile] at hne
        | false =>
            match hp : s.pending_brightness with
            | none => simp [reconcile, hp] at hne
            | some t =>
                by_cases hlt : now - t < PENDING_TIMEOUT
                · simp [reconcile, hp, hlt] at hne
                · exact ⟨level, t, rfl, rfl, Nat.not_lt.mp hlt,
                    by simp [reconcile, hp, hlt], by simp [reconcile, hp, hlt]⟩
    | .Temperature level is_hw =>
        cases is_hw with
        | true => simp [reconcile] at hne
        | false =>
            match hp : s.pending_temperature with
            | none => simp [reconcile, hp] at hne
            | some t =>
                by_cases hlt : now - t < PENDING_TIMEOUT
                · simp [reconcile, hp, hlt] at hne
                · simp [reconcile, hp, hlt] at hne
  · intro r hne
    match r with
    | .Power onb is_hw => simp [reconcile] at hne
    | .Brightness level is_hw =>
        cases is_hw with
        | true => simp [reconcile] at hne
        | false =>
            match hp : s.pending_brightness with
            | none => simp [reconcile, hp] at hne
            | some t =>
                by_cases hlt : now - t < PENDING_TIMEOUT
                · simp [reconcile, hp, hlt] at hne
                · simp [reconcile, hp, hlt] at hne
    | .Temperature level is_hw =>
        cases is_hw with
        | true => simp [reconcile] at hne
        | false =>
            match hp : s.pending_temperature with
            | none => simp [reconcile, hp] at hne
            | some t =>
                by_cases hlt : now - t < PENDING_TIMEOUT
                · simp [reconcile, hp, hlt] at hne
                · exact ⟨level, t, rfl, rfl, Nat.not_lt.mp hlt,
                    by simp [reconcile, hp, hlt], by simp [reconcile, hp, hlt]⟩
  · intro c hne
    match c with
    | .Retry => simp [handle_command] at hne
    | .SetPower onb => simp [handle_command] at hne
    | .SetBrightness level => exact ⟨level, rfl, rfl⟩
    | .SetTemperature level => simp [handle_command] at hne
  · intro c hne
    match c with
    | .Retry => simp [handle_command] at hne
    | .SetPower onb => simp [handle_command] at hne
    | .SetBrightness level => simp [handle_command] at hne
    | .SetTemperature level => exact ⟨level, rfl, rfl⟩

/-- C8 witness: an expired non-hardware response clears the marker; a
`SetBrightness` command stamps it. -/
theorem C8_pending_discipline_witness :
    (reconcile 400 ⟨false, 20, 2700, some 0, none⟩
        (.Brightness 5 false)).1.pending_brightness = none ∧
    (handle_command 7 (.SetBrightness 9)
        ⟨false, 20, 2700, none, none⟩).pending_brightness = some 7 := by
  constructor
  · exact (C8_pending_discipline 400 ⟨false, 20, 2700, some 0, none⟩).1
      0 5 rfl (by decide)
  · obtain ⟨l, _, h⟩ :=
      (C8_pending_discipline 7 ⟨false, 20, 2700, none, none⟩).2.2.2.2.1
        (.SetBrightness 9) (by decide)
    exact h

/-- C3 counterexample: when `open()` succeeds but the three query-command
writes issued immediately afterwards fail, the engine stays connected and
emits only `Connected` — no transition to Disconnected and no error event,
contrary to the claim; moreover the message the code does emit on a
genuine disconnect is "Device disconnected", not the claimed
"device disconnected". -/
theorem C3_counterexample :
    (⟨.success, true, [], false, .ok none, .timedOut, 0⟩ : Env).queryWritesFail
      = true ∧
    loopIter (⟨.success, true, [], false, .ok none, .timedOut, 0⟩ : Env)
        ⟨false, ⟨false, 20, 2700, none, none⟩, none⟩
      = .cont ⟨true, ⟨false, 20, 2700, none, none⟩, none⟩ [DeviceEvent.Connected] ∧
    "Device disconnected" ≠ "device disconnected" := by
  refine ⟨rfl, rfl, by decide⟩

/-- C3 (amended) -- While the handle is held, every command-write failure
and every read failure drops the handle and emits
`Error("Device disconnected")`, and a failing write aborts the rest of
that tick's queue; the query-command writes issued right after a
successful open are exempt: their failures are logged and ignored. -/
theorem C3_disconnect_on_failure :
    (∀ (env : Env) (s : DeviceState),
        (applyCmds env.now env.queuedCmds s).2 = true →
        connectedTick env s =
          ((applyCmds env.now env.queuedCmds s).1,
           [DeviceEvent.Error "Device disconnected"], false)) ∧
    (∀ (env : Env) (s : DeviceState),
        (applyCmds env.now env.queuedCmds s).2 = false → env.readResult = .err →
        connectedTick env s =
          ((applyCmds env.now env.queuedCmds s).1,
           [DeviceEvent.Error "Device disconnected"], false)) ∧
    (∀ (now : Nat) (c : DeviceCommand) (rest : List (DeviceCommand × Bool))
        (s : DeviceState), sendsWrite c = true →
        applyCmds now ((c, false) :: rest) s = (handle_command now c s, true)) ∧
    (∀ (env : Env) (ls : LoopState), ls.connected = true →
        loopIter env ls =
          .cont ⟨(connectedTick env ls.state).2.2, (connectedTick env ls.state).1,
                 ls.lastError⟩ (connectedTick env ls.state).2.1) ∧
    (∀ (env : Env) (ls : LoopState) (b : Bool), ls.connected = false →
        env.openOutcome = .success →
        loopIter { env with queryWritesFail := b } ls = loopIter env ls) := by
  refine ⟨?_, ?_, ?_, ?_, ?_⟩
  · intro env s h
    simp [connectedTick, h]
  · intro env s h1 h2
    simp [connectedTick, h1, h2]
  · intro now c rest s h
    simp [applyCmds, h]
  · intro env ls h
    simp [loopIter, h]
  · intro env ls b h1 h2
    simp [loopIter, connectedTick, h1, h2]

/-- C3 witness: an empty queue and a failing read drop the handle and emit
the disconnect error. -/
theorem C3_disconnect_on_failure_witness :
    connectedTick (⟨.success, false, [], false, .err, .timedOut, 0⟩ : Env)
        ⟨false, 20, 2700, none, none⟩
      = (⟨false, 20, 2700, none, none⟩,
         [DeviceEvent.Error "Device disconnected"], false) :=
  C3_disconnect_on_failure.2.1
    (⟨.success, false, [], false, .err, .timedOut, 0⟩ : Env)
    ⟨false, 20, 2700, none, none⟩ rfl rfl

/-- Auxiliary: once `last_error` already records `m`, a run of failed open
attempts with message `m` emits nothing and leaves the context fixed. -/
theorem runFailures_same (m : String) :
    ∀ (n : Nat) (s : DeviceState),
      runFailures (List.replicate n m) ⟨false, s, some m⟩
        = (⟨false, s, some m⟩, []) := by
  intro n
  induction n with
  | zero => intro s; rfl
  | succ k ih =>
      intro s
      simp [List.replicate_succ, runFailures, loopIter, failEnv, ih s]

/-- C6 -- While disconnected, a failed open attempt emits an `Error` event
only when its message differs from `last_error`; a run of `n ≥ 1`
consecutive failures with one unchanged message emits exactly one `Error`
event, and none at all when `last_error` already records that message. -/
theorem C6_error_dedup :
    (∀ (env : Env) (ls : LoopState) (msg : String),
        ls.connected = false → env.openOutcome = .failure msg →
        env.recvWhileDisconnected = .timedOut →
        loopIter env ls = .cont ⟨false, ls.state, some msg⟩
          (if ls.lastError = some msg then [] else [DeviceEvent.Error msg])) ∧
    (∀ (n : Nat) (m : String) (ls : LoopState),
        ls.connected = false → ls.lastError ≠ some m → 1 ≤ n →
        (runFailures (List.replicate n m) ls).2 = [DeviceEvent.Error m]) ∧
    (∀ (n : Nat) (m : String) (ls : LoopState),
        ls.connected = false → ls.lastError = some m →
        (runFailures (List.replicate n m) ls).2 = []) := by
  refine ⟨?_, ?_, ?_⟩
  · intro env ls msg h1 h2 h3
    simp [loopIter, h1, h2, h3]
  · intro n m ls h1 h2 h3
    obtain ⟨conn, s, le⟩ := ls
    cases conn with
    | true => simp at h1
    | false =>
        obtain ⟨k, rfl⟩ : ∃ k, n = k + 1 := ⟨n - 1, by omega⟩
        simp only [List.replicate_succ, runFailures, loopIter, failEnv] at h2 ⊢
        simp [h2, runFailures_same]
  · intro n m ls h1 h2
    obtain ⟨conn, s, le⟩ := ls
    cases conn with
    | true => simp at h1
    | false =>
        simp only at h2
        subst h2
        rw [runFailures_same]

/-- C6 witness: three identical open failures from a fresh disconnected
context emit exactly one error event. -/
theorem C6_error_dedup_witness :
    (runFailures (List.replicate 3 "Litra device not found")
        ⟨false, ⟨false, 20, 2700, none, none⟩, none⟩).2
      = [DeviceEvent.Error "Litra device not found"] :=
  C6_error_dedup.2.1 3 "Litra device not found"
    ⟨false, ⟨false, 20, 2700, none, none⟩, none⟩ rfl (by simp) (by omega)

/-- C9 counterexample: an iteration taken while connected, with the
command channel closed (the drain's final `try_recv` reports
`Disconnected` and `recv_timeout` would report closure), still continues
— the loop does not terminate on channel closure while a handle is held. -/
theorem C9_counterexample :
    loopIter (⟨.success, false, [], true, .ok none, .closed, 0⟩ : Env)
        ⟨true, ⟨false, 20, 2700, none, none⟩, none⟩
      = .cont ⟨true, ⟨false, 20, 2700, none, none⟩, none⟩ [] := rfl

/-- C9 (amended) -- An iteration halts the loop exactly when the engine
holds no handle, the open attempt fails, and `recv_timeout` reports the
channel closed; in particular no transport error halts it, and channel
closure alone does not halt it while connected. -/
theorem C9_halt_iff :
    ∀ (env : Env) (ls : LoopState),
      (loopIter env ls).isHalt = true ↔
        ls.connected = false ∧ env.recvWhileDisconnected = .closed ∧
          ∃ msg, env.openOutcome = .failure msg := by
  intro env ls
  obtain ⟨oo, qwf, qc, ccd, rr, rwd, now⟩ := env
  obtain ⟨conn, s, le⟩ := ls
  cases conn <;> cases oo <;> cases rwd <;>
    simp [loopIter, StepResult.isHalt, connectedTick]

/-- C9 witness: a closed channel observed while disconnected halts the
loop. -/
theorem C9_halt_iff_witness :
    (loopIter
        (⟨.failure "Litra device not found", false, [], false, .ok none,
          .closed, 0⟩ : Env)
        ⟨false, ⟨false, 20, 2700, none, none⟩, none⟩).isHalt = true :=
  (C9_halt_iff
      (⟨.failure "Litra device not found", false, [], false, .ok none,
        .closed, 0⟩ : Env)
      ⟨false, ⟨false, 20, 2700, none, none⟩, none⟩).mpr
    ⟨rfl, rfl, "Litra device not found", rfl⟩

/-- C7 counterexample: the headless CLI path sends a requested temperature
of 2749 unchanged — it clamps but never rounds to a multiple of 100. -/
theorem C7_counterexample :
    headless_temperature 2749 = 2749 ∧ headless_temperature 2749 % 100 ≠ 0 := by
  decide

/-- C7 (amended) -- The UI path (`clamp_temperature`) rounds the requested
temperature to the nearest multiple of 100 (within 50, ties upward) and
clamps it into [2700, 6500]; the headless CLI path only clamps into
[2700, 6500] without rounding; a requested 2650 is sent as 2700 on both
paths. -/
theorem C7_temperature_paths :
    ∀ (v : Int) (t : Nat),
      MIN_TEMPERATURE ≤ clamp_temperature v ∧
      clamp_temperature v ≤ MAX_TEMPERATURE ∧
      clamp_temperature v % 100 = 0 ∧
      clamp_temperature v ≤
        (clampInt v (MIN_TEMPERATURE : Nat) (MAX_TEMPERATURE : Nat)).toNat + 50 ∧
      (clampInt v (MIN_TEMPERATURE : Nat) (MAX_TEMPERATURE : Nat)).toNat ≤
        clamp_temperature v + 49 ∧
      MIN_TEMPERATURE ≤ headless_temperature t ∧
      headless_temperature t ≤ MAX_TEMPERATURE ∧
      clamp_temperature 2650 = 2700 ∧
      headless_temperature 2650 = 2700 := by
  intro v t
  refine ⟨?_, ?_, ?_, ?_, ?_, ?_, ?_, by decide, by decide⟩ <;>
    simp only [clamp_temperature, clampInt, clampNat, headless_temperature,
      MIN_TEMPERATURE, MAX_TEMPERATURE, TEMPERATURE_STEP] <;>
    split_ifs <;> omega

/-- C10 -- The headless brightness-to-percentage conversion is exact (no
u16 wrap in the subtraction or the multiplication) and bounded by 100
whenever the reported brightness lies in [0x14, 0xfa]; for any reported
value below 0x14 the subtraction underflows: its true value is negative
and the u16 result wraps to `b + 65516`. -/
theorem C10_brightness_pct :
    ∀ b : Nat,
      (MIN_BRIGHTNESS ≤ b → b ≤ MAX_BRIGHTNESS →
        sub16 b MIN_BRIGHTNESS = b - MIN_BRIGHTNESS ∧
        mul16 (sub16 b MIN_BRIGHTNESS) 100 = (b - MIN_BRIGHTNESS) * 100 ∧
        brightness_pct b =
          (b - MIN_BRIGHTNESS) * 100 / (MAX_BRIGHTNESS - MIN_BRIGHTNESS) ∧
        brightness_pct b ≤ 100) ∧
      (b < MIN_BRIGHTNESS →
        sub16 b MIN_BRIGHTNESS = b + 65516 ∧
        (b : Int) - (MIN_BRIGHTNESS : Nat) < 0) := by
  intro b
  constructor
  · intro h1 h2
    simp only [MIN_BRIGHTNESS, MAX_BRIGHTNESS] at h1 h2
    have e1 : sub16 b MIN_BRIGHTNESS = b - MIN_BRIGHTNESS := by
      simp only [sub16, MIN_BRIGHTNESS]
      omega
    have e2 : mul16 (sub16 b MIN_BRIGHTNESS) 100 = (b - MIN_BRIGHTNESS) * 100 := by
      rw [e1]
      simp only [mul16, MIN_BRIGHTNESS]
      omega
    have e3 : brightness_pct b =
        (b - MIN_BRIGHTNESS) * 100 / (MAX_BRIGHTNESS - MIN_BRIGHTNESS) := by
      simp only [brightness_pct]
      rw [e2]
      norm_num [sub16, MIN_BRIGHTNESS, MAX_BRIGHTNESS]
    refine ⟨e1, e2, e3, ?_⟩
    rw [e3]
    simp only [MIN_BRIGHTNESS, MAX_BRIGHTNESS]
    omega
  · intro h
    simp only [sub16, MIN_BRIGHTNESS] at *
    exact ⟨by omega, by omega⟩

/-- C10 witness: the conversion at the top of the valid range and the
wrap-around below it. -/
theorem C10_brightness_pct_witness :
    (sub16 250 MIN_BRIGHTNESS = 250 - MIN_BRIGHTNESS ∧
      brightness_pct 250 ≤ 100) ∧
    (sub16 0 MIN_BRIGHTNESS = 0 + 65516 ∧
      ((0 : Nat) : Int) - (MIN_BRIGHTNESS : Nat) < 0) := by
  obtain ⟨h1, _, _, h4⟩ := (C10_brightness_pct 250).1 (by decide) (by decide)
  obtain ⟨h5, h6⟩ := (C10_brightness_pct 0).2 (by decide)
  exact ⟨⟨h1, h4⟩, h5, h6⟩

end Litra
